import Mathlib

/-!
Verification development for the Contio partner SDK.

Shallow embedding of the SDK's trust/resilience core:
* `src/webhooks/verifier.ts` — HMAC webhook signature verification and payload parsing;
* the typed webhook dispatcher (`WebhookEventHandler`);
* `src/client/base.ts` — the retrying HTTP executor and its error translation;
* `src/auth/oauth.ts` — token refresh and client-credentials token acquisition.

External JavaScript/Node primitives (the `crypto` HMAC, `JSON.parse`,
`Date.now`/`Date.parse`) are modelled as explicit parameters of the embedded
functions; everything this repository itself implements is translated
directly from the TypeScript source.
-/

namespace PartnerSdk

instance {ε α : Type} [DecidableEq ε] [DecidableEq α] : DecidableEq (Except ε α) :=
  fun a b =>
    match a, b with
    | .ok x, .ok y =>
      if h : x = y then .isTrue (by rw [h])
      else .isFalse (fun hc => by cases hc; exact h rfl)
    | .error x, .error y =>
      if h : x = y then .isTrue (by rw [h])
      else .isFalse (fun hc => by cases hc; exact h rfl)
    | .ok _, .error _ => .isFalse (fun hc => Except.noConfusion hc)
    | .error _, .ok _ => .isFalse (fun hc => Except.noConfusion hc)

/-! ### JavaScript string primitives used by the source -/

/-- Model of JavaScript `String.prototype.split` with a single-character
separator, on the character list of the string.  `"".split(c) = [""]`,
`"a=b".split('=') = ["a","b"]`, `"=".split('=') = ["",""]`. -/
def splitChar (c : Char) : List Char → List (List Char)
  | [] => [[]]
  | a :: rest =>
    match splitChar c rest with
    | [] => [[]]
    | r :: rs => if a = c then [] :: r :: rs else (a :: r) :: rs

/-- JavaScript `s.split(c)` on Lean strings. -/
def jsSplit (s : String) (c : Char) : List String :=
  (splitChar c s.data).map String.mk

/-- JavaScript truthiness of a `string | undefined` value: `undefined` and
`""` are falsy, every other string is truthy. -/
def jsTruthy : Option String → Bool
  | none => false
  | some s => s ≠ ""

/-- JavaScript `a || b` for `a : string | undefined` with a string fallback:
returns `a` when it is truthy (present and non-empty), else `b`. -/
def jsOrString (a : Option String) (b : String) : String :=
  match a with
  | some s => if s = "" then b else s
  | none => b

/-! ### Hex encoding/decoding (Node `Buffer` semantics)

`hmac.digest('hex')` produces the lowercase hex rendering of the digest
bytes; `Buffer.from(str, 'hex')` decodes pairs of hex digits and stops at
the first character that is not a hex digit (a trailing lone digit is
dropped). -/

/-- Value of a hex digit character, `none` for a non-hex character.
Node's hex decoder accepts both lowercase and uppercase digits. -/
def hexDigitVal (c : Char) : Option Nat :=
  if '0' ≤ c ∧ c ≤ '9' then some (c.toNat - 48)
  else if 'a' ≤ c ∧ c ≤ 'f' then some (c.toNat - 87)
  else if 'A' ≤ c ∧ c ≤ 'F' then some (c.toNat - 55)
  else none

/-- Lowercase hex digit for a value `0..15` (as produced by `digest('hex')`). -/
def hexDigitChar : Nat → Char
  | 0 => '0' | 1 => '1' | 2 => '2' | 3 => '3' | 4 => '4'
  | 5 => '5' | 6 => '6' | 7 => '7' | 8 => '8' | 9 => '9'
  | 10 => 'a' | 11 => 'b' | 12 => 'c' | 13 => 'd' | 14 => 'e'
  | _ => 'f'

/-- Two lowercase hex digits of one byte. -/
def hexEncodeByte (b : Nat) : List Char :=
  [hexDigitChar (b / 16 % 16), hexDigitChar (b % 16)]

/-- Lowercase hex string (as a character list) of a byte list; models
`digest('hex')` applied to the digest bytes. -/
def hexEncode : List Nat → List Char
  | [] => []
  | b :: rest => hexEncodeByte b ++ hexEncode rest

/-- Node `Buffer.from(s, 'hex')`: decode hex pairs, truncating at the first
character that is not a hex digit and dropping a trailing lone digit. -/
def hexDecodeNode : List Char → List Nat
  | c1 :: c2 :: rest =>
    match hexDigitVal c1, hexDigitVal c2 with
    | some hi, some lo => (16 * hi + lo) :: hexDecodeNode rest
    | _, _ => []
  | _ => []

/-- A well-formed HMAC-SHA256 digest: 32 bytes, each below 256. -/
def IsDigest (bs : List Nat) : Prop :=
  bs.length = 32 ∧ ∀ b ∈ bs, b < 256

instance : DecidablePred IsDigest := fun bs => by
  unfold IsDigest; infer_instance

/-! ### `src/webhooks/verifier.ts` -/

/-- `WebhookVerificationResult` from `src/webhooks/types.ts`. -/
structure WebhookVerificationResult where
  isValid : Bool
  error : Option String
deriving DecidableEq

/-- `WebhookVerifier.verifySignature` (`src/webhooks/verifier.ts` lines
24-69).  The Node `crypto` HMAC is an external primitive and is passed in as
`hmacBytes : secret → payload → digest bytes`; the source's
`hmac.digest('hex')` is `hexEncode (hmacBytes secret payload)`.
`crypto.timingSafeEqual` on equal-length buffers is byte-list equality.
The string/Buffer payload overload hashes the same UTF-8 bytes in both
branches, so the payload is modelled once as a string. -/
def verifySignature (hmacBytes : String → String → List Nat)
    (secret payload signature : String) : WebhookVerificationResult :=
  if signature = "" then
    { isValid := false, error := some "Missing signature" }
  else
    -- Parse signature header (format: "sha256=<hex_signature>")
    let signatureParts := jsSplit signature '='
    if signatureParts.length ≠ 2 ∨ signatureParts.headD "" ≠ "sha256" then
      { isValid := false, error := some "Invalid signature format (expected \"sha256=<hex>\")" }
    else
      let cleanSignature := signatureParts.getD 1 ""
      let expectedSignature := hexEncode (hmacBytes secret payload)
      let signatureBuffer := hexDecodeNode cleanSignature.data
      let expectedSignatureBuffer := hexDecodeNode expectedSignature
      if signatureBuffer.length ≠ expectedSignatureBuffer.length then
        { isValid := false, error := some "Signature length mismatch" }
      else if signatureBuffer = expectedSignatureBuffer then
        { isValid := true, error := none }
      else
        { isValid := false, error := some "Signature mismatch" }

/-- The four mandatory envelope fields of `ContioWebhookEvent`
(`src/generated/webhook-types.ts`); a field absent from the decoded JSON is
modelled as the empty string, matching the falsiness test
`!event.event_type || ...` in `parseWebhook`.  The event-specific `data`
payload and optional `for_user` context do not influence the verified
control flow and are not modelled. -/
structure ContioWebhookEvent where
  event_type : String
  event_id : String
  timestamp : String
  partner_app_id : String
deriving DecidableEq

/-- The two distinct throw sites of `WebhookVerifier.parseWebhook`:
`verification failed` wraps the verifier's error message
(`Webhook verification failed: ...`), `parseFailed` wraps an error raised
while decoding/validating the payload
(`Failed to parse webhook payload: ...`). -/
inductive ParseWebhookError where
  | verificationFailed (msg : String)
  | parseFailed (msg : String)
deriving DecidableEq

/-- `WebhookVerifier.parseWebhook` (`src/webhooks/verifier.ts` lines 77-98).
`JSON.parse` is an external primitive, passed in as `jsonDecode`; a decode
exception with message `m` is `Except.error m`.  The required-field check
throws inside the same `try`, so its failure is also reported through the
`parseFailed` wrapper, exactly as in the source. -/
def parseWebhook (hmacBytes : String → String → List Nat)
    (jsonDecode : String → Except String ContioWebhookEvent)
    (secret payload signature : String) :
    Except ParseWebhookError ContioWebhookEvent :=
  -- Verify signature first
  let verification := verifySignature hmacBytes secret payload signature
  if verification.isValid = false then
    .error (.verificationFailed (verification.error.getD "undefined"))
  else
    match jsonDecode payload with
    | .error m => .error (.parseFailed m)
    | .ok event =>
      if event.event_type = "" ∨ event.event_id = "" ∨
          event.timestamp = "" ∨ event.partner_app_id = "" then
        .error (.parseFailed "Invalid webhook payload: missing required fields")
      else
        .ok event

/-! ### The typed webhook dispatcher (`WebhookEventHandler`)

Handlers are opaque to the dispatcher; they are modelled by an arbitrary
type `H` of handler identities, and `handle` is modelled by the ordered
list of handler invocations it performs (the source awaits each handler
sequentially, so the invocation order is exactly this list). -/

/-- Registration state of a `WebhookEventHandler`: the
`Map<string, Handler[]>` is modelled extensionally as a function from
event-type strings to handler lists (`Map.get(t) || []`), plus the optional
catch-all handler. -/
structure HandlerState (H : Type) where
  handlers : String → List H
  catchAllHandler : Option H

/-- The freshly constructed handler: empty map, no catch-all. -/
def emptyHandlerState (H : Type) : HandlerState H :=
  { handlers := fun _ => [], catchAllHandler := none }

/-- `WebhookEventHandler.on`: pushes the handler onto the list for
`eventType` (creating it when absent), preserving registration order. -/
def registerOn {H : Type} (st : HandlerState H) (eventType : String) (h : H) :
    HandlerState H :=
  { st with
    handlers := fun s =>
      if s = eventType then st.handlers eventType ++ [h] else st.handlers s }

/-- `WebhookEventHandler.onAny`: replaces the catch-all handler. -/
def registerAny {H : Type} (st : HandlerState H) (h : H) : HandlerState H :=
  { st with catchAllHandler := some h }

/-- One fluent registration call. -/
inductive RegOp (H : Type) where
  | on (eventType : String) (h : H)
  | onAny (h : H)
deriving DecidableEq

/-- Apply one registration call to the state. -/
def applyReg {H : Type} (st : HandlerState H) : RegOp H → HandlerState H
  | .on eventType h => registerOn st eventType h
  | .onAny h => registerAny st h

/-- State after a sequence of fluent registration calls on a fresh handler. -/
def buildState {H : Type} (ops : List (RegOp H)) : HandlerState H :=
  ops.foldl applyReg (emptyHandlerState H)

/-- The ordered handler invocations of the dispatch phase of
`WebhookEventHandler.handle`: the catch-all handler first (when
registered), then the handlers registered for the event's `event_type`, in
registration order.  Each is awaited sequentially in the source. -/
def dispatchList {H : Type} (st : HandlerState H) (event : ContioWebhookEvent) :
    List H :=
  (match st.catchAllHandler with
   | some h => [h]
   | none => []) ++ st.handlers event.event_type

/-- `WebhookEventHandler.handle`: parse (verification first), then
dispatch; returns the invocation order, or the parse failure unchanged. -/
def handleWebhook {H : Type} (hmacBytes : String → String → List Nat)
    (jsonDecode : String → Except String ContioWebhookEvent)
    (secret : String) (st : HandlerState H) (payload signature : String) :
    Except ParseWebhookError (List H) :=
  match parseWebhook hmacBytes jsonDecode secret payload signature with
  | .error e => .error e
  | .ok event => .ok (dispatchList st event)

/-- The handlers a registration sequence registers for one event type, in
registration order. -/
def registeredFor {H : Type} (ops : List (RegOp H)) (eventType : String) :
    List H :=
  ops.filterMap fun op =>
    match op with
    | .on e h => if e = eventType then some h else none
    | .onAny _ => none

/-- The catch-all handler left by a registration sequence (the last
`onAny`, starting from `init`). -/
def catchAllOf {H : Type} (ops : List (RegOp H)) (init : Option H) : Option H :=
  ops.foldl
    (fun acc op =>
      match op with
      | .on _ _ => acc
      | .onAny h => some h)
    init

/-! ### `src/client/base.ts` — error translation and the retry loop -/

/-- `ErrorResponse` from `src/models/auth.ts` (all fields optional on the
wire; `code` may be absent in practice, which the executor defaults). -/
structure ErrorResponse where
  code : Option String
  error : Option String
  message : Option String
  request_id : Option String
deriving DecidableEq

/-- `ContioAPIError` (`src/client/base.ts` lines 44-56). -/
structure ContioAPIError where
  message : String
  code : String
  statusCode : Option Nat
  response : Option ErrorResponse
deriving DecidableEq

/-- The three shapes of a rejected axios call, as distinguished by
`BaseClient.handleError`: a response was received (`error.response` set,
carrying the HTTP status, decoded body and headers), the request was sent
but no response arrived (`error.request` set), or the request could not be
constructed at all. -/
inductive AxiosFailure where
  | response (status : Nat) (data : ErrorResponse) (retryAfter : Option String)
  | noResponse
  | setup (msg : String)
deriving DecidableEq

/-- `BaseClient.handleError` (`src/client/base.ts` lines 269-292): translate
an axios rejection into the `ContioAPIError` it throws.  The `||` chains
use JavaScript truthiness, so empty-string body fields fall through to the
next alternative. -/
def handleError : AxiosFailure → ContioAPIError
  | .response status data _ =>
    { message := jsOrString data.error (jsOrString data.message "An error occurred")
      code := jsOrString data.code "unknown_error"
      statusCode := some status
      response := some data }
  | .noResponse =>
    { message := "No response received from server", code := "network_error"
      statusCode := none, response := none }
  | .setup msg =>
    { message := jsOrString (some msg) "An unknown error occurred"
      code := "request_error", statusCode := none, response := none }

/-- Outcome of one attempt at the transport level, before interceptors. -/
inductive AxiosOutcome (T : Type) where
  | success (data : T)
  | failure (f : AxiosFailure)

/-- A JavaScript error value caught by `retryRequest`: either a raw
`AxiosError` (for which `axios.isAxiosError` is true) or a
`ContioAPIError` thrown by the response interceptor. -/
inductive JsError where
  | contio (e : ContioAPIError)
  | axiosErr (f : AxiosFailure)
deriving DecidableEq

/-- `axios.isAxiosError(error) && error.response?.status` — the guarded
status used by the retry classification.  `ContioAPIError` is not an axios
error, and a status of `0` is falsy. -/
def errStatus : JsError → Option Nat
  | .axiosErr (.response s _ _) => if s = 0 then none else some s
  | _ => none

/-- `error.response.headers['retry-after']` of a raw axios error. -/
def errRetryAfter : JsError → Option String
  | .axiosErr (.response _ _ ra) => ra
  | _ => none

/-- One call of the request thunk passed to `retryRequest` by
`BaseClient.get/post/put/patch/delete`: the axios instance runs the
response interceptor installed in the `BaseClient` constructor, which maps
every rejection through `handleError`, so the thunk always rejects with a
`ContioAPIError`, never a raw `AxiosError`. -/
def axiosRequest {T : Type} (responses : Nat → AxiosOutcome T) (i : Nat) :
    Except JsError T :=
  match responses i with
  | .success d => .ok d
  | .failure f => .error (.contio (handleError f))

/-- Result of a `retryRequest` run: the settled value, the number of
attempts performed, and the backoff sleeps in order (milliseconds). -/
structure RunResult (T : Type) where
  result : Except JsError T
  attempts : Nat
  delays : List Nat
deriving DecidableEq

/-- The loop body of `BaseClient.retryRequest` (`src/client/base.ts` lines
194-235), indexed by the remaining iterations (`fuel`) and the current
attempt index `i`; `retries` and `retryDelay` are the resolved
configuration (`this.config.retries ?? 3`, `this.config.retryDelay ??
1000`).  `parseRA` stands for `parseRetryAfter`, whose `parseInt` /
`Date.parse` / `Date.now` internals are external JavaScript primitives.
The final `throw lastError` after the loop is the `fuel = 0` case. -/
def retryLoop {T : Type} (retries retryDelay : Nat)
    (parseRA : Option String → Option Nat) (responses : Nat → AxiosOutcome T) :
    Nat → Nat → List Nat → Option JsError → RunResult T
  | 0, i, ds, lastError =>
    { result := .error (lastError.getD (.contio (handleError .noResponse)))
      attempts := i, delays := ds }
  | fuel + 1, i, ds, _ =>
    match axiosRequest responses i with
    | .ok d => { result := .ok d, attempts := i + 1, delays := ds }
    | .error err =>
      match errStatus err with
      | some status =>
        if status = 429 then
          -- rate limit: retry with Retry-After or exponential backoff
          if i = retries then
            { result := .error err, attempts := i + 1, delays := ds }
          else
            retryLoop retries retryDelay parseRA responses fuel (i + 1)
              (ds ++ [(parseRA (errRetryAfter err)).getD (retryDelay * 2 ^ i)])
              (some err)
        else if 400 ≤ status ∧ status < 500 then
          -- don't retry on other client errors (4xx except 429)
          { result := .error err, attempts := i + 1, delays := ds }
        else
          if i = retries then
            { result := .error err, attempts := i + 1, delays := ds }
          else
            retryLoop retries retryDelay parseRA responses fuel (i + 1)
              (ds ++ [retryDelay * 2 ^ i]) (some err)
      | none =>
        if i = retries then
          { result := .error err, attempts := i + 1, delays := ds }
        else
          retryLoop retries retryDelay parseRA responses fuel (i + 1)
            (ds ++ [retryDelay * 2 ^ i]) (some err)

/-- `BaseClient.retryRequest` as invoked by the request helpers: the loop
runs `i` from `0` to `retries` inclusive. -/
def retryRequest {T : Type} (retries retryDelay : Nat)
    (parseRA : Option String → Option Nat) (responses : Nat → AxiosOutcome T) :
    RunResult T :=
  retryLoop retries retryDelay parseRA responses (retries + 1) 0 [] none

/-! ### `src/auth/oauth.ts` — token parsing, client credentials, refresh -/

/-- `OAuthTokenResponse` from `src/models/auth.ts`. -/
structure OAuthTokenResponse where
  access_token : String
  token_type : String
  expires_in : Option Nat
  refresh_token : Option String
  scope : Option String
  id_token : Option String
deriving DecidableEq

/-- `AuthTokens` from `src/models/auth.ts`; the `Date` is modelled as
milliseconds since the epoch. -/
structure AuthTokens where
  accessToken : String
  refreshToken : Option String
  idToken : Option String
  expiresAtMs : Option Nat
  scope : Option (List String)
deriving DecidableEq

/-- `OAuthClient.parseTokenResponse` (`src/auth/oauth.ts` lines 615-627).
`Date.now()` is passed in as `nowMs`.  `response.expires_in ? ... :
undefined` uses truthiness, so `expires_in = 0` yields no expiry;
`response.scope?.split(' ')` splits on a single space. -/
def parseTokenResponse (nowMs : Nat) (response : OAuthTokenResponse) :
    AuthTokens :=
  { accessToken := response.access_token
    refreshToken := response.refresh_token
    idToken := response.id_token
    expiresAtMs :=
      match response.expires_in with
      | some s => if s = 0 then none else some (nowMs + s * 1000)
      | none => none
    scope := response.scope.map fun s => jsSplit s ' ' }

/-- The success path of `OAuthClient.getClientCredentialsToken`
(`src/auth/oauth.ts` lines 233-257): the token endpoint's parsed JSON body
is fed to `parseTokenResponse` and the result is stored and returned
unchanged. -/
def getClientCredentialsToken (nowMs : Nat) (response : OAuthTokenResponse) :
    AuthTokens :=
  parseTokenResponse nowMs response

/-- Observable outcome of one `refreshAccessToken` call: the held
`this.tokens` afterwards, the returned value or thrown message, and the
number of network calls made to the token endpoint. -/
structure RefreshResult where
  state : Option AuthTokens
  outcome : Except String AuthTokens
  networkCalls : Nat
deriving DecidableEq

/-- `OAuthClient.refreshAccessToken` (`src/auth/oauth.ts` lines 185-216).
`refreshToken || this.tokens?.refreshToken` uses JavaScript truthiness; a
falsy `tokenToUse` throws `No refresh token available` before any network
activity.  The token endpoint is modelled by `server`, mapping the refresh
token sent to either a parsed response body or a failure message. -/
def refreshAccessToken (nowMs : Nat) (override : Option String)
    (held : Option AuthTokens)
    (server : String → Except String OAuthTokenResponse) : RefreshResult :=
  let tokenToUse :=
    if jsTruthy override then override else held.bind fun t => t.refreshToken
  if jsTruthy tokenToUse then
    match server (tokenToUse.getD "") with
    | .ok response =>
      let tokens := parseTokenResponse nowMs response
      { state := some tokens, outcome := .ok tokens, networkCalls := 1 }
    | .error m =>
      { state := held, outcome := .error ("Failed to refresh token: " ++ m)
        networkCalls := 1 }
  else
    { state := held, outcome := .error "No refresh token available"
      networkCalls := 0 }

/-! ### Concrete instances used by witnesses and counterexamples

The abstract external primitives (HMAC, `JSON.parse`) are instantiated here
with small concrete functions so that the universally quantified theorems
can be evaluated at explicit inputs. -/

/-- The raw body of the spec's webhook scenario (`\x7b`/`\x7d` are the
literal brace characters). -/
def wBody : String :=
  "\x7b\"event_type\":\"meeting.created\",\"event_id\":\"evt_1\",\"timestamp\":\"2026-01-01T00:00:00Z\",\"partner_app_id\":\"app_1\",\"data\":\x7b\x7d\x7d"

/-- The scenario body with one character flipped (`evt_1` → `evt_2`). -/
def wBodyFlipped : String :=
  "\x7b\"event_type\":\"meeting.created\",\"event_id\":\"evt_2\",\"timestamp\":\"2026-01-01T00:00:00Z\",\"partner_app_id\":\"app_1\",\"data\":\x7b\x7d\x7d"

/-- The envelope the scenario body decodes to. -/
def wEnv : ContioWebhookEvent :=
  { event_type := "meeting.created", event_id := "evt_1"
    timestamp := "2026-01-01T00:00:00Z", partner_app_id := "app_1" }

/-- Concrete stand-in for the HMAC primitive: distinguishes the scenario
body from every other payload. -/
def wHmac : String → String → List Nat := fun _ p =>
  if p = wBody then List.replicate 32 0 else List.replicate 32 1

/-- Concrete stand-in for `JSON.parse` + envelope typing: decodes the
scenario body, and raises a decode error on anything else. -/
def wJson : String → Except String ContioWebhookEvent := fun p =>
  if p = wBody then .ok wEnv else .error "Unexpected token in JSON"

/-- Concrete constant HMAC used by counterexamples. -/
def hmacZero : String → String → List Nat := fun _ _ => List.replicate 32 0

/-- A concrete registration sequence (handlers named by numbers): a
catch-all, two handlers for `meeting.created`, one for another type. -/
def wOps : List (RegOp Nat) :=
  [.onAny 0, .on "meeting.created" 1, .on "meeting.completed" 2,
   .on "meeting.created" 3]

/-- Error body of the concrete 404 response used for the executor claims. -/
def errBody404 : ErrorResponse :=
  { code := some "not_found", error := some "Resource not found"
    message := none, request_id := none }

/-- An error body whose `error` and `code` fields are present but empty. -/
def wEmptyFieldsBody : ErrorResponse :=
  { code := some "", error := some "", message := some "hi", request_id := none }

/-! ### Helper lemmas: hex and split -/

theorem hexDigitVal_hexDigitChar {n : Nat} (h : n < 16) :
    hexDigitVal (hexDigitChar n) = some n := by
  interval_cases n <;> decide

theorem hexDigitChar_ne_eqChar (n : Nat) : hexDigitChar n ≠ '=' := by
  unfold hexDigitChar
  split <;> decide

theorem eqChar_not_mem_hexEncode (bs : List Nat) : '=' ∉ hexEncode bs := by
  induction bs with
  | nil => simp [hexEncode]
  | cons b rest ih =>
    simp only [hexEncode, hexEncodeByte, List.cons_append, List.nil_append,
      List.mem_cons, not_or]
    exact ⟨fun h => hexDigitChar_ne_eqChar _ h.symm,
      fun h => hexDigitChar_ne_eqChar _ h.symm, ih⟩

theorem hexDecodeNode_hexEncode (bs : List Nat) (h : ∀ b ∈ bs, b < 256) :
    hexDecodeNode (hexEncode bs) = bs := by
  induction bs with
  | nil => rfl
  | cons b rest ih =>
    have hb : b < 256 := h b (by simp)
    have h1 : b / 16 % 16 < 16 := Nat.mod_lt _ (by norm_num)
    have h2 : b % 16 < 16 := Nat.mod_lt _ (by norm_num)
    simp only [hexEncode, hexEncodeByte, List.cons_append, List.nil_append,
      hexDecodeNode, hexDigitVal_hexDigitChar h1, hexDigitVal_hexDigitChar h2]
    rw [show 16 * (b / 16 % 16) + b % 16 = b by omega]
    show b :: hexDecodeNode (hexEncode rest) = b :: rest
    rw [ih fun x hx => h x (by simp [hx])]

theorem length_hexEncode (bs : List Nat) :
    (hexEncode bs).length = 2 * bs.length := by
  induction bs with
  | nil => rfl
  | cons b rest ih => simp [hexEncode, hexEncodeByte, ih]; omega

theorem splitChar_of_not_mem {c : Char} {l : List Char} (h : c ∉ l) :
    splitChar c l = [l] := by
  induction l with
  | nil => rfl
  | cons a rest ih =>
    have ha : a ≠ c := fun he => h (by simp [he])
    have hr : c ∉ rest := fun hm => h (by simp [hm])
    simp [splitChar, ih hr, ha]

theorem splitChar_append_cons {c : Char} {l₁ l₂ : List Char}
    (h₁ : c ∉ l₁) (h₂ : c ∉ l₂) :
    splitChar c (l₁ ++ c :: l₂) = [l₁, l₂] := by
  induction l₁ with
  | nil => simp [splitChar, splitChar_of_not_mem h₂]
  | cons a rest ih =>
    have ha : a ≠ c := fun he => h₁ (by simp [he])
    have hr : c ∉ rest := fun hm => h₁ (by simp [hm])
    simp [splitChar, ih hr, ha]

/-! ### Helper lemmas: the signature verifier -/

/-- A header `sha256=<hex of digest d>` verifies exactly when `d` is the
digest the verifier computes over the payload. -/
theorem verifySignature_digest_header (hmacBytes : String → String → List Nat)
    (secret payload : String) (d : List Nat) (hd : IsDigest d)
    (he : IsDigest (hmacBytes secret payload)) :
    verifySignature hmacBytes secret payload
        ("sha256=" ++ String.mk (hexEncode d)) =
      if d = hmacBytes secret payload then ⟨true, none⟩
      else ⟨false, some "Signature mismatch"⟩ := by
  have hdata : ("sha256=" ++ String.mk (hexEncode d)).data =
      "sha256".data ++ '=' :: hexEncode d := rfl
  have hne : ("sha256=" ++ String.mk (hexEncode d)) ≠ "" := by
    intro h
    have h2 := congrArg String.data h
    rw [hdata] at h2
    simp at h2
  have hsplit : splitChar '=' ("sha256=" ++ String.mk (hexEncode d)).data =
      ["sha256".data, hexEncode d] := by
    rw [hdata]
    exact splitChar_append_cons (by decide) (eqChar_not_mem_hexEncode d)
  have hparts : jsSplit ("sha256=" ++ String.mk (hexEncode d)) '=' =
      ["sha256", String.mk (hexEncode d)] := by
    unfold jsSplit
    rw [hsplit]
    rfl
  unfold verifySignature
  rw [if_neg hne, hparts]
  have hfmt : ¬(([("sha256" : String), String.mk (hexEncode d)]).length ≠ 2 ∨
      ([("sha256" : String), String.mk (hexEncode d)]).headD "" ≠ "sha256") := by
    simp
  rw [if_neg hfmt]
  simp only [List.getD, List.get?, Option.getD_some]
  have hdec : hexDecodeNode (hexEncode d) = d := hexDecodeNode_hexEncode d hd.2
  have hdec2 : hexDecodeNode (hexEncode (hmacBytes secret payload)) =
      hmacBytes secret payload := hexDecodeNode_hexEncode _ he.2
  simp only [show (String.mk (hexEncode d)).data = hexEncode d from rfl,
    hdec, hdec2]
  have hlen : ¬(d.length ≠ (hmacBytes secret payload).length) := by
    rw [hd.1, he.1]; simp
  rw [if_neg hlen]

/-- A tagged header whose digest part does not hex-decode (with Node's
truncating decoder) to exactly 32 bytes fails with the length-mismatch
error. -/
theorem verifySignature_length_mismatch (hmacBytes : String → String → List Nat)
    (secret payload rest : String) (he : IsDigest (hmacBytes secret payload))
    (hnm : '=' ∉ rest.data)
    (hlen : (hexDecodeNode rest.data).length ≠ 32) :
    verifySignature hmacBytes secret payload ("sha256=" ++ rest) =
      ⟨false, some "Signature length mismatch"⟩ := by
  have hdata : ("sha256=" ++ rest).data = "sha256".data ++ '=' :: rest.data := rfl
  have hne : ("sha256=" ++ rest) ≠ "" := by
    intro h
    have h2 := congrArg String.data h
    rw [hdata] at h2
    simp at h2
  have hsplit : splitChar '=' ("sha256=" ++ rest).data =
      ["sha256".data, rest.data] := by
    rw [hdata]
    exact splitChar_append_cons (by decide) hnm
  have hparts : jsSplit ("sha256=" ++ rest) '=' = ["sha256", String.mk rest.data] := by
    unfold jsSplit
    rw [hsplit]
    rfl
  unfold verifySignature
  rw [if_neg hne, hparts]
  have hfmt : ¬(([("sha256" : String), String.mk rest.data]).length ≠ 2 ∨
      ([("sha256" : String), String.mk rest.data]).headD "" ≠ "sha256") := by
    simp
  rw [if_neg hfmt]
  simp only [List.getD, List.get?, Option.getD_some]
  have hdec2 : hexDecodeNode (hexEncode (hmacBytes secret payload)) =
      hmacBytes secret payload := hexDecodeNode_hexEncode _ he.2
  rw [show (String.mk rest.data).data = rest.data from rfl, hdec2]
  rw [if_pos (by rw [he.1]; exact hlen)]

/-! ### Claim theorems: webhook verifier -/

/-- C1: `parseWebhook` runs signature verification before any JSON
decoding: whenever verification fails the result is a verification
failure (never an envelope and never a decode error); a correctly signed
payload that decodes to an envelope with all four mandatory fields
non-empty is returned; and a body whose digest differs from the one the
attached signature was computed over (e.g. one flipped character) raises
the signature mismatch, never a decode error. -/
theorem C1_parseWebhook_verifies_before_decoding
    (hmacBytes : String → String → List Nat)
    (jsonDecode : String → Except String ContioWebhookEvent)
    (secret payload signature : String) :
    ((verifySignature hmacBytes secret payload signature).isValid = false →
      ∃ m, parseWebhook hmacBytes jsonDecode secret payload signature =
        .error (.verificationFailed m)) ∧
    (∀ env : ContioWebhookEvent,
      IsDigest (hmacBytes secret payload) →
      signature = "sha256=" ++ String.mk (hexEncode (hmacBytes secret payload)) →
      jsonDecode payload = .ok env →
      env.event_type ≠ "" → env.event_id ≠ "" → env.timestamp ≠ "" →
      env.partner_app_id ≠ "" →
      parseWebhook hmacBytes jsonDecode secret payload signature = .ok env) ∧
    (∀ payload' : String,
      IsDigest (hmacBytes secret payload) →
      IsDigest (hmacBytes secret payload') →
      hmacBytes secret payload' ≠ hmacBytes secret payload →
      parseWebhook hmacBytes jsonDecode secret payload'
          ("sha256=" ++ String.mk (hexEncode (hmacBytes secret payload))) =
        .error (.verificationFailed "Signature mismatch")) := by
  refine ⟨fun h => ?_, fun env hdig hsig hjson h1 h2 h3 h4 => ?_,
    fun payload' hdig hdig' hne => ?_⟩
  · exact ⟨(verifySignature hmacBytes secret payload signature).error.getD
      "undefined", by simp [parseWebhook, h]⟩
  · subst hsig
    have hv := verifySignature_digest_header hmacBytes secret payload
      (hmacBytes secret payload) hdig hdig
    rw [if_pos rfl] at hv
    simp [parseWebhook, hv, hjson, h1, h2, h3, h4]
  · have hv := verifySignature_digest_header hmacBytes secret payload'
      (hmacBytes secret payload) hdig hdig'
    rw [if_neg (Ne.symm hne)] at hv
    simp [parseWebhook, hv]

/-- Witness for C1 at the spec scenario: the correctly signed scenario body
parses to its envelope, and the same body with one character flipped
raises the signature mismatch. -/
theorem C1_witness :
    parseWebhook wHmac wJson "whsec_test" wBody
        ("sha256=" ++ String.mk (hexEncode (wHmac "whsec_test" wBody))) =
      .ok wEnv ∧
    parseWebhook wHmac wJson "whsec_test" wBodyFlipped
        ("sha256=" ++ String.mk (hexEncode (wHmac "whsec_test" wBody))) =
      .error (.verificationFailed "Signature mismatch") :=
  ⟨(C1_parseWebhook_verifies_before_decoding wHmac wJson "whsec_test" wBody
      ("sha256=" ++ String.mk (hexEncode (wHmac "whsec_test" wBody)))).2.1
    wEnv (by decide) rfl (by decide) (by decide) (by decide) (by decide)
    (by decide),
   (C1_parseWebhook_verifies_before_decoding wHmac wJson "whsec_test" wBody
      ("sha256=" ++ String.mk (hexEncode (wHmac "whsec_test" wBody)))).2.2
    wBodyFlipped (by decide) (by decide) (by decide)⟩

/-- C2: verifying a payload against the header built from its own digest
succeeds, and verifying it against the header built from the digest of
`payload ++ suffix` (a non-empty suffix, with a differing digest) fails
with `isValid = false`. -/
theorem C2_sign_verify_roundtrip (hmacBytes : String → String → List Nat)
    (secret payload suffix : String)
    (hsecret : secret ≠ "") (hsuffix : suffix ≠ "")
    (hd : IsDigest (hmacBytes secret payload))
    (hd' : IsDigest (hmacBytes secret (payload ++ suffix)))
    (hne : hmacBytes secret (payload ++ suffix) ≠ hmacBytes secret payload) :
    verifySignature hmacBytes secret payload
        ("sha256=" ++ String.mk (hexEncode (hmacBytes secret payload))) =
      ⟨true, none⟩ ∧
    verifySignature hmacBytes secret payload
        ("sha256=" ++ String.mk (hexEncode (hmacBytes secret (payload ++ suffix)))) =
      ⟨false, some "Signature mismatch"⟩ := by
  constructor
  · have hv := verifySignature_digest_header hmacBytes secret payload
      (hmacBytes secret payload) hd hd
    rwa [if_pos rfl] at hv
  · have hv := verifySignature_digest_header hmacBytes secret payload
      (hmacBytes secret (payload ++ suffix)) hd' hd
    rwa [if_neg hne] at hv

/-- Witness for C2 at a concrete secret, payload and suffix. -/
theorem C2_witness :
    verifySignature wHmac "whsec_test" wBody
        ("sha256=" ++ String.mk (hexEncode (wHmac "whsec_test" wBody))) =
      ⟨true, none⟩ ∧
    verifySignature wHmac "whsec_test" wBody
        ("sha256=" ++ String.mk (hexEncode (wHmac "whsec_test" (wBody ++ "x")))) =
      ⟨false, some "Signature mismatch"⟩ :=
  C2_sign_verify_roundtrip wHmac "whsec_test" wBody "x" (by decide) (by decide)
    (by decide) (by decide) (by decide)

/-- Counterexample for C3: a digest part with non-hex content (`zz`) makes
`verifySignature` fail with the length-mismatch error — not with the
format error the claim requires. -/
theorem C3_counterexample :
    verifySignature hmacZero "whsec_test" "payload" "sha256=zz" =
      ⟨false, some "Signature length mismatch"⟩ ∧
    some "Signature length mismatch" ≠
      (some "Invalid signature format (expected \"sha256=<hex>\")" :
        Option String) := by
  decide

/-- C3 (amended): a header missing the `sha256=` tag (or of any other
shape than `sha256=<digest>`) fails with the format error; but a digest
part with non-hex content is hex-decoded only up to the first non-hex
character, and whenever the decoded prefix is not exactly 32 bytes the
verifier reports the length-mismatch error, not a format error. -/
theorem C3_amended_header_errors (hmacBytes : String → String → List Nat)
    (secret payload signature : String)
    (he : IsDigest (hmacBytes secret payload)) :
    (signature ≠ "" →
      (jsSplit signature '=').length ≠ 2 ∨
        (jsSplit signature '=').headD "" ≠ "sha256" →
      verifySignature hmacBytes secret payload signature =
        ⟨false, some "Invalid signature format (expected \"sha256=<hex>\")"⟩) ∧
    (∀ rest : String, '=' ∉ rest.data →
      (hexDecodeNode rest.data).length ≠ 32 →
      verifySignature hmacBytes secret payload ("sha256=" ++ rest) =
        ⟨false, some "Signature length mismatch"⟩) := by
  constructor
  · intro hne hshape
    unfold verifySignature
    rw [if_neg hne, if_pos hshape]
  · intro rest hnm hlen
    exact verifySignature_length_mismatch hmacBytes secret payload rest he hnm
      hlen

/-- Witness for the amended C3: a header with a wrong tag gets the format
error; a tagged non-hex digest gets the length-mismatch error. -/
theorem C3_amended_witness :
    verifySignature hmacZero "whsec_test" "payload" "sha1=abcd" =
      ⟨false, some "Invalid signature format (expected \"sha256=<hex>\")"⟩ ∧
    verifySignature hmacZero "whsec_test" "payload" ("sha256=" ++ "zz") =
      ⟨false, some "Signature length mismatch"⟩ :=
  ⟨(C3_amended_header_errors hmacZero "whsec_test" "payload" "sha1=abcd"
      (by decide)).1 (by decide) (by decide),
   (C3_amended_header_errors hmacZero "whsec_test" "payload" "sha1=abcd"
      (by decide)).2 "zz" (by decide) (by decide)⟩

/-- C10: `verifySignature` is total: on every payload and signature it
returns a `WebhookVerificationResult`, and every failure carries an error
message (`isValid = false` comes with `error = some msg`, success with
`error = none`). -/
theorem C10_verifySignature_total (hmacBytes : String → String → List Nat)
    (secret payload signature : String) :
    ((verifySignature hmacBytes secret payload signature).isValid = true ∧
      (verifySignature hmacBytes secret payload signature).error = none) ∨
    ((verifySignature hmacBytes secret payload signature).isValid = false ∧
      ∃ m, (verifySignature hmacBytes secret payload signature).error =
        some m) := by
  unfold verifySignature
  split
  · simp
  · dsimp only
    split
    · simp
    · split
      · simp
      · split <;> simp

/-! ### Helper lemmas: dispatcher registration -/

theorem foldl_applyReg_handlers {H : Type} (ops : List (RegOp H))
    (st : HandlerState H) (et : String) :
    (ops.foldl applyReg st).handlers et = st.handlers et ++ registeredFor ops et := by
  induction ops generalizing st with
  | nil => simp [registeredFor]
  | cons op rest ih =>
    rcases op with ⟨e, h⟩ | h
    · rw [List.foldl_cons, ih]
      by_cases hc : e = et
      · subst hc
        simp [applyReg, registerOn, registeredFor, List.filterMap_cons]
      · have hc' : ¬et = e := fun he => hc he.symm
        simp [applyReg, registerOn, registeredFor, List.filterMap_cons, hc, hc']
    · rw [List.foldl_cons, ih]
      simp [applyReg, registerAny, registeredFor, List.filterMap_cons]

theorem foldl_applyReg_catchAll {H : Type} (ops : List (RegOp H))
    (st : HandlerState H) :
    (ops.foldl applyReg st).catchAllHandler = catchAllOf ops st.catchAllHandler := by
  induction ops generalizing st with
  | nil => rfl
  | cons op rest ih =>
    rcases op with ⟨e, h⟩ | h
    · rw [List.foldl_cons, ih]; rfl
    · rw [List.foldl_cons, ih]; rfl

theorem mem_registeredFor {H : Type} {ops : List (RegOp H)} {et : String}
    {h : H} (hm : h ∈ registeredFor ops et) : RegOp.on et h ∈ ops := by
  unfold registeredFor at hm
  rw [List.mem_filterMap] at hm
  obtain ⟨op, hop, heq⟩ := hm
  rcases op with ⟨e, h'⟩ | h'
  · by_cases hc : e = et
    · subst hc
      simp at heq
      subst heq
      exact hop
    · simp [hc] at heq
  · simp at heq

/-! ### Claim theorems: dispatcher -/

/-- C6: handling a delivery whose envelope has
`event_type = "meeting.created"` invokes the catch-all handler first (when
one is registered), then every handler registered for `"meeting.created"`
in registration order, and never a handler registered only for a different
event type. -/
theorem C6_dispatch_meeting_created {H : Type}
    (hmacBytes : String → String → List Nat)
    (jsonDecode : String → Except String ContioWebhookEvent)
    (secret payload signature : String) (ops : List (RegOp H))
    (env : ContioWebhookEvent) (henv : env.event_type = "meeting.created")
    (hparse : parseWebhook hmacBytes jsonDecode secret payload signature =
      .ok env) :
    handleWebhook hmacBytes jsonDecode secret (buildState ops) payload
        signature =
      .ok ((match catchAllOf ops none with
            | some h => [h]
            | none => []) ++ registeredFor ops "meeting.created") ∧
    ∀ h : H,
      h ∈ (match catchAllOf ops none with
           | some h' => [h']
           | none => []) ++ registeredFor ops "meeting.created" →
      catchAllOf ops none = some h ∨ RegOp.on "meeting.created" h ∈ ops := by
  constructor
  · unfold handleWebhook
    rw [hparse]
    unfold dispatchList buildState
    dsimp only
    rw [foldl_applyReg_handlers, foldl_applyReg_catchAll, henv]
    simp [emptyHandlerState]
  · intro h hm
    rw [List.mem_append] at hm
    rcases hm with hm | hm
    · left
      cases hca : catchAllOf ops none with
      | none => rw [hca] at hm; simp at hm
      | some h' => rw [hca] at hm; simp at hm; rw [hm]
    · right
      exact mem_registeredFor hm

/-- Witness for C6: with a catch-all `0`, handlers `1`, `3` for
`meeting.created` and `2` for `meeting.completed`, handling the verified
scenario delivery invokes exactly `[0, 1, 3]` in that order. -/
theorem C6_witness :
    handleWebhook wHmac wJson "whsec_test" (buildState wOps) wBody
        ("sha256=" ++ String.mk (hexEncode (wHmac "whsec_test" wBody))) =
      .ok ((match catchAllOf wOps none with
            | some h => [h]
            | none => []) ++ registeredFor wOps "meeting.created") ∧
    ((match catchAllOf wOps none with
      | some h => [h]
      | none => []) ++ registeredFor wOps "meeting.created") = [0, 1, 3] :=
  ⟨(C6_dispatch_meeting_created wHmac wJson "whsec_test" wBody
      ("sha256=" ++ String.mk (hexEncode (wHmac "whsec_test" wBody))) wOps wEnv
      (by decide) (by decide)).1,
   by decide⟩

/-! ### Helper lemmas: the retry loop -/

/-- When every attempt fails with the same received-response failure, the
loop (entered at attempt `i` with `fuel` iterations left, where
`i + fuel = retries + 1`) performs all remaining attempts and surfaces the
translated error of the last one.  Because the response interceptor has
already converted the rejection to a `ContioAPIError`, the status-based
classification in the loop never fires, whatever the status is. -/
theorem retryLoop_const_failure {T : Type} (retries retryDelay : Nat)
    (parseRA : Option String → Option Nat) (responses : Nat → AxiosOutcome T)
    (f : AxiosFailure)
    (hall : ∀ i, responses i = .failure f) :
    ∀ fuel i ds le, i + fuel = retries + 1 → 0 < fuel →
      (retryLoop retries retryDelay parseRA responses fuel i ds le).result =
        .error (.contio (handleError f)) ∧
      (retryLoop retries retryDelay parseRA responses fuel i ds le).attempts =
        retries + 1 := by
  intro fuel
  induction fuel with
  | zero => intro i ds le hsum hpos; omega
  | succ fl ih =>
    intro i ds le hsum hpos
    have hreq : axiosRequest responses i = .error (.contio (handleError f)) := by
      unfold axiosRequest
      rw [hall i]
    by_cases hi : i = retries
    · subst hi
      simp [retryLoop, hreq, errStatus]
    · have h1 : (i + 1) + fl = retries + 1 := by omega
      have h2 : 0 < fl := by omega
      simp only [retryLoop, hreq, errStatus]
      rw [if_neg hi]
      exact ih (i + 1) (ds ++ [retryDelay * 2 ^ i]) (some (.contio (handleError f)))
        h1 h2

/-! ### Claim theorems: the executor -/

/-- C4: with `retries ≥ 2`, a request answered `[429, 429, 200]` resolves
with the success data after exactly 2 backoff delays (3 attempts); a
request answered 500 on every attempt performs exactly `retries + 1`
attempts and surfaces the translated last failure. -/
theorem C4_executor_retry_behavior {T : Type} (retries retryDelay : Nat)
    (parseRA : Option String → Option Nat) (hret : 2 ≤ retries) :
    (∀ (responses : Nat → AxiosOutcome T) (d : T) (b0 b1 : ErrorResponse)
        (ra0 ra1 : Option String),
      responses 0 = .failure (.response 429 b0 ra0) →
      responses 1 = .failure (.response 429 b1 ra1) →
      responses 2 = .success d →
      (retryRequest retries retryDelay parseRA responses).result = .ok d ∧
      (retryRequest retries retryDelay parseRA responses).attempts = 3 ∧
      (retryRequest retries retryDelay parseRA responses).delays.length = 2) ∧
    (∀ (responses : Nat → AxiosOutcome T) (b : ErrorResponse)
        (ra : Option String),
      (∀ i, responses i = .failure (.response 500 b ra)) →
      (retryRequest retries retryDelay parseRA responses).result =
        .error (.contio (handleError (.response 500 b ra))) ∧
      (retryRequest retries retryDelay parseRA responses).attempts =
        retries + 1) := by
  constructor
  · intro responses d b0 b1 ra0 ra1 h0 h1 h2
    obtain ⟨k, rfl⟩ : ∃ k, retries = k + 2 := ⟨retries - 2, by omega⟩
    have e0 : axiosRequest responses 0 =
        .error (.contio (handleError (.response 429 b0 ra0))) := by
      unfold axiosRequest
      rw [h0]
    have e1 : axiosRequest responses 1 =
        .error (.contio (handleError (.response 429 b1 ra1))) := by
      unfold axiosRequest
      rw [h1]
    have e2 : axiosRequest responses 2 = .ok d := by
      unfold axiosRequest
      rw [h2]
    unfold retryRequest
    simp only [retryLoop, e0, errStatus]
    rw [if_neg (by omega : ¬(0 : Nat) = k + 2)]
    simp only [retryLoop, e1, errStatus]
    rw [if_neg (by omega : ¬(1 : Nat) = k + 2)]
    simp only [retryLoop, e2]
    simp
  · intro responses b ra hall
    exact retryLoop_const_failure retries retryDelay parseRA responses
      (.response 500 b ra) hall (retries + 1) 0 [] none (by omega) (by omega)

/-- Witness for C4 at `retries = 2`, `retryDelay = 1000`: the `[429, 429,
200]` sequence and the constant-500 sequence. -/
theorem C4_witness :
    ((retryRequest 2 1000 (fun _ => none)
        (fun i =>
          if i = 0 then .failure (.response 429 errBody404 none)
          else if i = 1 then .failure (.response 429 errBody404 none)
          else .success (7 : Nat))).result = .ok 7 ∧
      (retryRequest 2 1000 (fun _ => none)
        (fun i =>
          if i = 0 then .failure (.response 429 errBody404 none)
          else if i = 1 then .failure (.response 429 errBody404 none)
          else .success (7 : Nat))).attempts = 3 ∧
      (retryRequest 2 1000 (fun _ => none)
        (fun i =>
          if i = 0 then .failure (.response 429 errBody404 none)
          else if i = 1 then .failure (.response 429 errBody404 none)
          else .success (7 : Nat))).delays.length = 2) ∧
    ((retryRequest 2 1000 (fun _ => none)
        (fun _ => (.failure (.response 500 errBody404 none) :
          AxiosOutcome Nat))).result =
        .error (.contio (handleError (.response 500 errBody404 none))) ∧
      (retryRequest 2 1000 (fun _ => none)
        (fun _ => (.failure (.response 500 errBody404 none) :
          AxiosOutcome Nat))).attempts = 2 + 1) :=
  ⟨(C4_executor_retry_behavior 2 1000 (fun _ => none) (by decide)).1
      (fun i =>
        if i = 0 then .failure (.response 429 errBody404 none)
        else if i = 1 then .failure (.response 429 errBody404 none)
        else .success (7 : Nat))
      7 errBody404 errBody404 none none rfl rfl rfl,
   (C4_executor_retry_behavior 2 1000 (fun _ => none) (by decide)).2
      (fun _ => .failure (.response 500 errBody404 none)) errBody404 none
      (fun i => rfl)⟩

/-- C5 (the code violates it): with `retries = 3`, a request whose response
is 404 on every attempt is attempted 4 times with 3 backoff sleeps before
the translated error surfaces — not attempted exactly once as the claim
states.  The response interceptor installed in the `BaseClient`
constructor converts every `AxiosError` into a `ContioAPIError` before
`retryRequest` catches it, so `axios.isAxiosError(error)` is false and the
4xx fast-fail branch is unreachable. -/
theorem C5_404_is_retried :
    (retryRequest 3 1000 (fun _ => none)
        (fun _ => (.failure (.response 404 errBody404 none) :
          AxiosOutcome Nat))).attempts = 4 ∧
    (retryRequest 3 1000 (fun _ => none)
        (fun _ => (.failure (.response 404 errBody404 none) :
          AxiosOutcome Nat))).delays = [1000, 2000, 4000] ∧
    (retryRequest 3 1000 (fun _ => none)
        (fun _ => (.failure (.response 404 errBody404 none) :
          AxiosOutcome Nat))).result =
      .error (.contio (handleError (.response 404 errBody404 none))) := by
  decide

/-! ### Claim theorems: token lifecycle -/

/-- C7: `refreshAccessToken` with no override and no refresh token in the
held `TokenSet` fails with `No refresh token available`, makes no network
call, and leaves the held tokens unchanged. -/
theorem C7_refresh_without_token_no_network (nowMs : Nat)
    (held : Option AuthTokens)
    (server : String → Except String OAuthTokenResponse)
    (hheld : (held.bind fun t => t.refreshToken) = none) :
    refreshAccessToken nowMs none held server =
      { state := held, outcome := .error "No refresh token available"
        networkCalls := 0 } := by
  unfold refreshAccessToken
  rw [hheld]
  simp [jsTruthy]

/-- Witness for C7: a held `TokenSet` without a refresh token, against a
server that would answer if called. -/
theorem C7_witness :
    refreshAccessToken 0 none
        (some { accessToken := "at", refreshToken := none, idToken := none
                expiresAtMs := none, scope := none })
        (fun _ => .error "boom") =
      { state := some { accessToken := "at", refreshToken := none
                        idToken := none, expiresAtMs := none, scope := none }
        outcome := .error "No refresh token available", networkCalls := 0 } :=
  C7_refresh_without_token_no_network 0
    (some { accessToken := "at", refreshToken := none, idToken := none
            expiresAtMs := none, scope := none })
    (fun _ => .error "boom") (by decide)

/-- Counterexample for C8: a successful token-endpoint response that does
carry a `refresh_token` yields a `TokenSet` holding that refresh token —
not one with no refresh token, as the claim states for every successful
response. -/
theorem C8_counterexample :
    (getClientCredentialsToken 0
        { access_token := "at", token_type := "Bearer"
          expires_in := some 3600, refresh_token := some "rt", scope := none
          id_token := none }).refreshToken = some "rt" ∧
    (some "rt" : Option String) ≠ none := by
  decide

/-- C8 (amended): `getClientCredentialsToken` copies the response's
`refresh_token` into the `TokenSet` unchanged, so the `TokenSet` has no
refresh token exactly when the token endpoint omits one (as it does for
the client-credentials grant); the access token is the response's, and a
non-zero `expires_in` of `s` seconds gives expiry `now + 1000·s`. -/
theorem C8_amended_client_credentials (nowMs : Nat)
    (response : OAuthTokenResponse)
    (hnort : response.refresh_token = none) :
    (getClientCredentialsToken nowMs response).refreshToken = none ∧
    (getClientCredentialsToken nowMs response).accessToken =
      response.access_token ∧
    (∀ s, response.expires_in = some s → s ≠ 0 →
      (getClientCredentialsToken nowMs response).expiresAtMs =
        some (nowMs + s * 1000)) := by
  refine ⟨?_, rfl, ?_⟩
  · simp [getClientCredentialsToken, parseTokenResponse, hnort]
  · intro s hs hs0
    simp [getClientCredentialsToken, parseTokenResponse, hs, hs0]

/-- Witness for the amended C8: a standard client-credentials response
without a refresh token. -/
theorem C8_amended_witness :
    (getClientCredentialsToken 5
        { access_token := "at", token_type := "Bearer"
          expires_in := some 3600, refresh_token := none, scope := none
          id_token := none }).refreshToken = none ∧
    (getClientCredentialsToken 5
        { access_token := "at", token_type := "Bearer"
          expires_in := some 3600, refresh_token := none, scope := none
          id_token := none }).accessToken = "at" ∧
    (getClientCredentialsToken 5
        { access_token := "at", token_type := "Bearer"
          expires_in := some 3600, refresh_token := none, scope := none
          id_token := none }).expiresAtMs = some (5 + 3600 * 1000) := by
  have h := C8_amended_client_credentials 5
    { access_token := "at", token_type := "Bearer", expires_in := some 3600
      refresh_token := none, scope := none, id_token := none } (by decide)
  exact ⟨h.1, h.2.1, h.2.2 3600 rfl (by decide)⟩

/-! ### Claim theorems: executor error translation -/

/-- Counterexample for C9: a response body whose `error` and `code` fields
are present but empty.  The claim says the structured error's message
equals the body's `error` field when present (here `""`) and its code the
body's `code` field (here `""`), but the `||` chains use truthiness, so
the message falls through to the `message` field and the code to
`unknown_error`. -/
theorem C9_counterexample :
    wEmptyFieldsBody.error = some "" ∧ wEmptyFieldsBody.code = some "" ∧
    (handleError (.response 400 wEmptyFieldsBody none)).message = "hi" ∧
    (handleError (.response 400 wEmptyFieldsBody none)).code =
      "unknown_error" := by
  decide

/-- C9 (amended): for a terminal failure carrying an HTTP response, the
structured error's message is the body's `error` field when present and
non-empty, else the body's `message` field when present and non-empty,
else `An error occurred`; its code is the body's `code` field when present
and non-empty, else `unknown_error`; its statusCode is the response
status, and the decoded body is attached. -/
theorem C9_amended_error_translation (status : Nat) (data : ErrorResponse)
    (ra : Option String) :
    (handleError (.response status data ra)).statusCode = some status ∧
    (∀ s, data.error = some s → s ≠ "" →
      (handleError (.response status data ra)).message = s) ∧
    ((data.error = none ∨ data.error = some "") →
      ∀ s, data.message = some s → s ≠ "" →
      (handleError (.response status data ra)).message = s) ∧
    ((data.error = none ∨ data.error = some "") →
      (data.message = none ∨ data.message = some "") →
      (handleError (.response status data ra)).message = "An error occurred") ∧
    (∀ s, data.code = some s → s ≠ "" →
      (handleError (.response status data ra)).code = s) ∧
    ((data.code = none ∨ data.code = some "") →
      (handleError (.response status data ra)).code = "unknown_error") ∧
    (handleError (.response status data ra)).response = some data := by
  refine ⟨rfl, ?_, ?_, ?_, ?_, ?_, rfl⟩
  · intro s hs hne
    simp [handleError, jsOrString, hs, hne]
  · rintro (he | he) s hs hne <;>
      simp [handleError, jsOrString, he, hs, hne]
  · rintro (he | he) (hm | hm) <;>
      simp [handleError, jsOrString, he, hm]
  · intro s hs hne
    simp [handleError, jsOrString, hs, hne]
  · rintro (hc | hc) <;> simp [handleError, jsOrString, hc]

/-- Witness for the amended C9: body with no `code`, `error` set to
`Invalid parameters`. -/
theorem C9_amended_witness :
    (handleError (.response 400
        { code := none, error := some "Invalid parameters"
          message := some "msg", request_id := some "req-abc-123" }
        none)).statusCode = some 400 ∧
    (handleError (.response 400
        { code := none, error := some "Invalid parameters"
          message := some "msg", request_id := some "req-abc-123" }
        none)).message = "Invalid parameters" ∧
    (handleError (.response 400
        { code := none, error := some "Invalid parameters"
          message := some "msg", request_id := some "req-abc-123" }
        none)).code = "unknown_error" := by
  have h := C9_amended_error_translation 400
    { code := none, error := some "Invalid parameters", message := some "msg"
      request_id := some "req-abc-123" } none
  exact ⟨h.1, h.2.1 "Invalid parameters" rfl (by decide),
    h.2.2.2.2.2.1 (Or.inl rfl)⟩

end PartnerSdk
